import Mathlib

/-!
Shallow embedding of the GT911 configuration codec
(source: goodix_gt911_config.py) together with proofs of the
specification's testable properties.

Modelling conventions:
- A Python bytearray is a `List Nat` whose entries are byte values.
  Item assignment range-checks the value exactly as CPython does:
  assigning a value outside `range(0, 256)` raises `ValueError`, which we
  model with `Except String`.  All assignment indices in the source are
  literals within the 186-byte buffer, so the index bound check is
  statically satisfied and not modelled.
- Python exceptions become `Except String` (the message string is the
  Python exception message); reads that can raise IndexError / a struct
  unpack error become `Option`.
- Python integers are `Int`; Python `%` on ints agrees with `Int.emod`,
  and `v & 0xFF` on an arbitrary int equals `v % 256`.
- Python dicts are heap-allocated objects; for the preset table we model
  the heap explicitly as an association list from addresses to values, so
  that aliasing (returning a dict versus returning its `.copy()`) is
  observable.
-/

/-- Model of `validate_resolution`: raises ValueError when a resolution is
out of (0, 4095] or odd, mirroring the two checks in the source. -/
def validate_resolution (x_max y_max : Int) : Except String Unit :=
  if ¬ (0 < x_max ∧ x_max ≤ 4095 ∧ 0 < y_max ∧ y_max ≤ 4095) then
    Except.error "Resolution must be between 1 and 4095"
  else if x_max % 2 ≠ 0 ∨ y_max % 2 ≠ 0 then
    Except.error "Resolution values must be even numbers"
  else
    Except.ok ()

/-- Model of a CPython bytearray item assignment `buf[i] = v`: the value
must lie in `range(0, 256)` or a ValueError is raised. -/
def byteSet (buf : List Nat) (i : Nat) (v : Int) : Except String (List Nat) :=
  if 0 ≤ v ∧ v < 256 then
    Except.ok (buf.set i v.toNat)
  else
    Except.error "byte must be in range(0, 256)"

/-- Model of `struct.pack_into('<H', buf, off, v)`: writes `v` as an
unsigned 16-bit little-endian value; out-of-range values raise. -/
def pack_into_u16le (buf : List Nat) (off : Nat) (v : Int) : Except String (List Nat) :=
  if 0 ≤ v ∧ v ≤ 65535 then
    Except.ok ((buf.set off (v.toNat % 256)).set (off + 1) (v.toNat / 256 % 256))
  else
    Except.error "struct.error: argument out of range"

/-- Model of the checksum computation in `generate_goodix_config`:
`sum_8 = total & 0xFF` and `checksum_8 = ((~sum_8) + 1) & 0xFF`, using
the Python identities `~a = -a - 1` and `a & 0xFF = a % 256`. -/
def checksum8 (total : Int) : Int :=
  ((-(total % 256) - 1) + 1) % 256

/-- Model of `generate_goodix_config`: validates the resolution, fills a
fresh 186-byte buffer field by field, writes the 8-bit checksum over
bytes 0..183 at offset 184 and the config-fresh flag 0x01 at 185. -/
def generate_goodix_config (x_max y_max touch_threshold num_touch_points filter_coefficient : Int) :
    Except String (List Nat) := do
  let _ ← validate_resolution x_max y_max
  -- config = bytearray(186), then an explicit loop re-writes every byte to 0x00
  let config : List Nat := List.replicate 186 0
  -- config[0] = 0x01
  let config ← byteSet config 0 0x01
  -- struct.pack_into('<H', config, 1, x_max)
  let config ← pack_into_u16le config 1 x_max
  -- struct.pack_into('<H', config, 3, y_max)
  let config ← pack_into_u16le config 3 y_max
  -- config[5] = min(max(1, num_touch_points), 10)
  let config ← byteSet config 5 (min (max 1 num_touch_points) 10)
  -- config[6] = 0x00
  let config ← byteSet config 6 0x00
  -- config[7] = 0x00
  let config ← byteSet config 7 0x00
  -- config[8] = 0x03
  let config ← byteSet config 8 0x03
  -- config[9] = filter_coefficient & 0xFF
  let config ← byteSet config 9 (filter_coefficient % 256)
  -- config[12] = max(1, touch_threshold)
  let config ← byteSet config 12 (max 1 touch_threshold)
  -- sum_8 = sum(config[0:184]) & 0xFF ; checksum_8 = ((~sum_8) + 1) & 0xFF
  -- config[184] = checksum_8
  let config ← byteSet config 184 (checksum8 ((config.take 184).sum : Int))
  -- config[185] = 0x01
  let config ← byteSet config 185 0x01
  return config

/-- Field view produced by `print_config_details`: the local variables it
extracts from the blob before printing them. -/
structure ConfigView where
  config_version : Nat
  x_res : Nat
  y_res : Nat
  touches : Nat
  mswitch1 : Nat
  mswitch2 : Nat
  shake : Nat
  flt : Nat
  threshold : Nat
  csum : Nat
  fresh : Nat
  deriving Repr, DecidableEq

/-- Model of a bytearray read `buf[i]` with a nonnegative literal index:
raises IndexError when the index is out of range. -/
def byteGet (buf : List Nat) (i : Nat) : Option Nat :=
  buf[i]?

/-- Model of `struct.unpack_from('<H', buf, off)[0]`: reads an unsigned
16-bit little-endian value; raises when fewer than two bytes remain. -/
def unpack_from_u16le (buf : List Nat) (off : Nat) : Option Nat :=
  if off + 2 ≤ buf.length then
    some (buf.getD off 0 + 256 * buf.getD (off + 1) 0)
  else
    none

/-- Model of `print_config_details`: extracts every field the function
reads, in the order the source reads them. -/
def print_config_details (config : List Nat) : Option ConfigView := do
  let config_version ← byteGet config 0
  let x_res ← unpack_from_u16le config 1
  let y_res ← unpack_from_u16le config 3
  let touches ← byteGet config 5
  let mswitch1 ← byteGet config 6
  let mswitch2 ← byteGet config 7
  let shake ← byteGet config 8
  let flt ← byteGet config 9
  let threshold ← byteGet config 12
  let csum ← byteGet config 184
  let fresh ← byteGet config 185
  return ⟨config_version, x_res, y_res, touches, mswitch1, mswitch2,
          shake, flt, threshold, csum, fresh⟩

/-- Settings dict contents: the five keys every preset carries. -/
structure Settings where
  x_max : Int
  y_max : Int
  touch_threshold : Int
  num_touch_points : Int
  filter_coefficient : Int
  deriving Repr, DecidableEq

/-- Contents of `PRESETS['7inch']`. -/
def preset_7inch : Settings := ⟨1024, 600, 16, 5, 4⟩

/-- Contents of `PRESETS['5inch']`. -/
def preset_5inch : Settings := ⟨800, 480, 20, 5, 4⟩

/-- Contents of `PRESETS['waveshare7']`. -/
def preset_waveshare7 : Settings := ⟨1280, 800, 28, 5, 4⟩

/-- A heap of settings dicts: association list from addresses to values. -/
abbrev Heap := List (Nat × Settings)

/-- Dereference a dict address. -/
def heapGet (h : Heap) (a : Nat) : Option Settings :=
  (h.find? (fun p => p.1 == a)).map Prod.snd

/-- Mutate the dict at an address in place. -/
def heapSet (h : Heap) (a : Nat) (s : Settings) : Heap :=
  h.map (fun p => if p.1 = a then (p.1, s) else p)

/-- An address not used by any dict in the heap. -/
def freshAddr (h : Heap) : Nat :=
  (h.map Prod.fst).foldr (fun a b => max a b) 0 + 1

/-- The `PRESETS` dict: maps each preset name to the address of its
settings dict. -/
def PRESETS : List (String × Nat) := [("7inch", 0), ("5inch", 1), ("waveshare7", 2)]

/-- The heap at module initialisation: the three preset dicts. -/
def presetsHeap : Heap := [(0, preset_7inch), (1, preset_5inch), (2, preset_waveshare7)]

/-- Dict lookup `PRESETS[name]` as used by `load_preset`. -/
def dict_lookup (name : String) : Option Nat :=
  (PRESETS.find? (fun p => p.1 == name)).map Prod.snd

/-- Model of `load_preset`: an unknown name returns `PRESETS['7inch']`
itself (the very dict in the table, no copy); a known name returns
`PRESETS[name].copy()`, a freshly allocated dict with the same contents.
The inner fallback arm is unreachable on `presetsHeap`, where every
`PRESETS` address is allocated. -/
def load_preset (h : Heap) (name : String) : Heap × Nat :=
  match dict_lookup name with
  | none => (h, (dict_lookup "7inch").getD 0)
  | some a =>
    match heapGet h a with
    | some s => ((freshAddr h, s) :: h, freshAddr h)
    | none => (h, (dict_lookup "7inch").getD 0)

deriving instance DecidableEq for Except

/-- The thirteen bytes 0..12 of the encoded buffer, as written by
`generate_goodix_config` before the checksum step. -/
def first13 (x y t n f : Int) : List Nat :=
  [1, x.toNat % 256, x.toNat / 256 % 256, y.toNat % 256, y.toNat / 256 % 256,
   (min (max 1 n) 10).toNat, 0, 0, 3, (f % 256).toNat, 0, 0, (max 1 t).toNat]

/-- Sum of bytes 0..183 of the encoded buffer (bytes 13..183 are zero). -/
def bodySum (x y t n f : Int) : Nat := (first13 x y t n f).sum

/-- Closed form of the blob produced by a successful
`generate_goodix_config` call. -/
def blobList (x y t n f : Int) : List Nat :=
  first13 x y t n f ++ List.replicate 171 0 ++
    [(checksum8 (bodySum x y t n f : Int)).toNat, 1]

theorem bind_ok_elim {α β : Type} (a : α) (g : α → Except String β) :
    (Except.ok a >>= g) = g a := rfl

theorem bind_err_elim {α β : Type} (e : String) (g : α → Except String β) :
    ((Except.error e : Except String α) >>= g) = Except.error e := rfl

theorem byteSet_ok (buf : List Nat) (i : Nat) (v : Int) (h0 : 0 ≤ v) (h1 : v < 256) :
    byteSet buf i v = Except.ok (buf.set i v.toNat) := by
  unfold byteSet; rw [if_pos ⟨h0, h1⟩]

theorem byteSet_err (buf : List Nat) (i : Nat) (v : Int) (h : ¬ (0 ≤ v ∧ v < 256)) :
    byteSet buf i v = Except.error "byte must be in range(0, 256)" := by
  unfold byteSet; rw [if_neg h]

theorem pack_into_u16le_ok (buf : List Nat) (off : Nat) (v : Int)
    (h0 : 0 ≤ v) (h1 : v ≤ 65535) :
    pack_into_u16le buf off v =
      Except.ok ((buf.set off (v.toNat % 256)).set (off + 1) (v.toNat / 256 % 256)) := by
  unfold pack_into_u16le; rw [if_pos ⟨h0, h1⟩]

theorem validate_resolution_ok_iff (x y : Int) :
    validate_resolution x y = Except.ok () ↔
      (0 < x ∧ x ≤ 4095 ∧ 0 < y ∧ y ≤ 4095 ∧ x % 2 = 0 ∧ y % 2 = 0) := by
  unfold validate_resolution
  by_cases h1 : 0 < x ∧ x ≤ 4095 ∧ 0 < y ∧ y ≤ 4095
  · rw [if_neg (not_not_intro h1)]
    by_cases h2 : x % 2 ≠ 0 ∨ y % 2 ≠ 0
    · rw [if_pos h2]
      exact iff_of_false (by simp) (by omega)
    · rw [if_neg h2]
      exact iff_of_true rfl (by omega)
  · rw [if_pos h1]
    exact iff_of_false (by simp) (by omega)

set_option maxRecDepth 4000 in
theorem generate_characterization (x y t n f : Int)
    (hx1 : 0 < x) (hx2 : x ≤ 4095) (hy1 : 0 < y) (hy2 : y ≤ 4095)
    (hxe : x % 2 = 0) (hye : y % 2 = 0) :
    generate_goodix_config x y t n f =
      if t ≤ 255 then Except.ok (blobList x y t n f)
      else Except.error "byte must be in range(0, 256)" := by
  have hv : validate_resolution x y = Except.ok () :=
    (validate_resolution_ok_iff x y).mpr ⟨hx1, hx2, hy1, hy2, hxe, hye⟩
  unfold generate_goodix_config
  rw [hv]; simp only [bind_ok_elim]
  rw [byteSet_ok _ _ _ (by omega) (by omega)]; simp only [bind_ok_elim]
  rw [pack_into_u16le_ok _ _ _ (by omega) (by omega)]; simp only [bind_ok_elim]
  rw [pack_into_u16le_ok _ _ _ (by omega) (by omega)]; simp only [bind_ok_elim]
  rw [byteSet_ok _ _ _ (by omega) (by omega)]; simp only [bind_ok_elim]
  rw [byteSet_ok _ _ _ (by omega) (by omega)]; simp only [bind_ok_elim]
  rw [byteSet_ok _ _ _ (by omega) (by omega)]; simp only [bind_ok_elim]
  rw [byteSet_ok _ _ _ (by omega) (by omega)]; simp only [bind_ok_elim]
  rw [byteSet_ok _ _ _ (by omega) (by omega)]; simp only [bind_ok_elim]
  by_cases ht : t ≤ 255
  · rw [if_pos ht]
    rw [byteSet_ok _ _ _ (by omega) (by omega)]; simp only [bind_ok_elim]
    rw [byteSet_ok _ _ _ (by unfold checksum8; omega) (by unfold checksum8; omega)]
    simp only [bind_ok_elim]
    rw [byteSet_ok _ _ _ (by omega) (by omega)]; simp only [bind_ok_elim]
    rfl
  · rw [if_neg ht]
    rw [byteSet_err _ _ _ (by omega)]
    rw [bind_err_elim]

theorem generate_ok_inv {x y t n f : Int} {blob : List Nat}
    (h : generate_goodix_config x y t n f = Except.ok blob) :
    (0 < x ∧ x ≤ 4095 ∧ 0 < y ∧ y ≤ 4095 ∧ x % 2 = 0 ∧ y % 2 = 0) ∧ t ≤ 255 ∧
      blob = blobList x y t n f := by
  cases hv : validate_resolution x y with
  | error e =>
      unfold generate_goodix_config at h
      rw [hv, bind_err_elim] at h
      exact absurd h (by simp)
  | ok u =>
      cases u
      obtain ⟨hx1, hx2, hy1, hy2, hxe, hye⟩ := (validate_resolution_ok_iff x y).mp hv
      rw [generate_characterization x y t n f hx1 hx2 hy1 hy2 hxe hye] at h
      by_cases ht : t ≤ 255
      · rw [if_pos ht] at h
        injection h with h
        exact ⟨⟨hx1, hx2, hy1, hy2, hxe, hye⟩, ht, h.symm⟩
      · rw [if_neg ht] at h
        exact absurd h (by simp)

set_option maxRecDepth 2000 in
theorem blobList_length (x y t n f : Int) : (blobList x y t n f).length = 186 := rfl

theorem blobList_getD_5 (x y t n f : Int) :
    (blobList x y t n f).getD 5 0 = (min (max 1 n) 10).toNat := rfl

set_option maxRecDepth 2000 in
theorem blobList_getD_184 (x y t n f : Int) :
    (blobList x y t n f).getD 184 0 = (checksum8 (bodySum x y t n f : Int)).toNat := rfl

set_option maxRecDepth 2000 in
theorem blobList_getD_185 (x y t n f : Int) : (blobList x y t n f).getD 185 0 = 1 := rfl

set_option maxRecDepth 2000 in
theorem blobList_take_184 (x y t n f : Int) :
    (blobList x y t n f).take 184 = first13 x y t n f ++ List.replicate 171 0 := rfl

set_option maxRecDepth 2000 in
theorem blobList_take_185 (x y t n f : Int) :
    (blobList x y t n f).take 185 =
      first13 x y t n f ++ List.replicate 171 0 ++
        [(checksum8 (bodySum x y t n f : Int)).toNat] := rfl

theorem take184_sum (x y t n f : Int) :
    ((blobList x y t n f).take 184).sum = bodySum x y t n f := by
  rw [blobList_take_184, List.sum_append, List.sum_const_nat, bodySum]
  omega

theorem take185_sum (x y t n f : Int) :
    ((blobList x y t n f).take 185).sum
      = bodySum x y t n f + (checksum8 (bodySum x y t n f : Int)).toNat := by
  rw [blobList_take_185, List.sum_append, List.sum_append, List.sum_const_nat, bodySum]
  simp [Nat.add_assoc]

theorem checksum8_eq (s : Nat) : (checksum8 (s : Int)).toNat = (256 - s % 256) % 256 := by
  unfold checksum8; omega

theorem sum_add_checksum8 (s : Nat) : (s + (checksum8 (s : Int)).toNat) % 256 = 0 := by
  unfold checksum8; omega

theorem obind_some_elim {α β : Type} (a : α) (g : α → Option β) :
    (some a >>= g) = g a := rfl

theorem obind_eq_some {α β : Type} (o : Option α) (g : α → Option β) (b : β) :
    (o >>= g) = some b ↔ ∃ a, o = some a ∧ g a = some b := by
  cases o <;> simp

theorem byteGet_some (buf : List Nat) (i : Nat) (h : i < buf.length) :
    byteGet buf i = some (buf.getD i 0) := by
  unfold byteGet
  rw [List.getD_eq_getElem?_getD]
  cases e : buf[i]? with
  | none => exact absurd (List.getElem?_eq_none_iff.mp e) (by omega)
  | some a => rfl

theorem byteGet_some_inv {buf : List Nat} {i : Nat} {a : Nat}
    (h : byteGet buf i = some a) : i < buf.length := by
  by_contra hc
  unfold byteGet at h
  rw [List.getElem?_eq_none (by omega)] at h
  exact absurd h (by simp)

theorem unpack_some (buf : List Nat) (off : Nat) (h : off + 2 ≤ buf.length) :
    unpack_from_u16le buf off = some (buf.getD off 0 + 256 * buf.getD (off + 1) 0) := by
  unfold unpack_from_u16le
  rw [if_pos h]

theorem print_config_details_of_length (l : List Nat) (h : 186 ≤ l.length) :
    print_config_details l =
      some ⟨l.getD 0 0, l.getD 1 0 + 256 * l.getD 2 0, l.getD 3 0 + 256 * l.getD 4 0,
            l.getD 5 0, l.getD 6 0, l.getD 7 0, l.getD 8 0, l.getD 9 0,
            l.getD 12 0, l.getD 184 0, l.getD 185 0⟩ := by
  unfold print_config_details
  rw [byteGet_some _ _ (by omega)]; simp only [obind_some_elim]
  rw [unpack_some _ _ (by omega)]; simp only [obind_some_elim]
  rw [unpack_some _ _ (by omega)]; simp only [obind_some_elim]
  rw [byteGet_some _ _ (by omega)]; simp only [obind_some_elim]
  rw [byteGet_some _ _ (by omega)]; simp only [obind_some_elim]
  rw [byteGet_some _ _ (by omega)]; simp only [obind_some_elim]
  rw [byteGet_some _ _ (by omega)]; simp only [obind_some_elim]
  rw [byteGet_some _ _ (by omega)]; simp only [obind_some_elim]
  rw [byteGet_some _ _ (by omega)]; simp only [obind_some_elim]
  rw [byteGet_some _ _ (by omega)]; simp only [obind_some_elim]
  rw [byteGet_some _ _ (by omega)]; simp only [obind_some_elim]
  rfl

theorem print_config_details_some_length {l : List Nat} {v : ConfigView}
    (h : print_config_details l = some v) : 186 ≤ l.length := by
  unfold print_config_details at h
  simp only [obind_eq_some] at h
  obtain ⟨a0, h0, a1, h1, a2, h2, a3, h3, a4, h4, a5, h5, a6, h6, a7, h7,
          a8, h8, a9, h9, a10, h10, hv⟩ := h
  have := byteGet_some_inv h10
  omega

theorem decode_blobList (x y t n f : Int) :
    print_config_details (blobList x y t n f) =
      some ⟨1, x.toNat % 256 + 256 * (x.toNat / 256 % 256),
            y.toNat % 256 + 256 * (y.toNat / 256 % 256),
            (min (max 1 n) 10).toNat, 0, 0, 3, (f % 256).toNat, (max 1 t).toNat,
            (checksum8 (bodySum x y t n f : Int)).toNat, 1⟩ := by
  rw [print_config_details_of_length _ (by rw [blobList_length])]
  rw [blobList_getD_184, blobList_getD_185]
  rfl

theorem beq_false_of_ne_string {a b : String} (h : b ≠ a) : (a == b) = false := by
  rw [beq_eq_false_iff_ne]
  exact fun hh => h hh.symm

theorem dict_lookup_none_of_unknown (name : String)
    (h7 : name ≠ "7inch") (h5 : name ≠ "5inch") (hw : name ≠ "waveshare7") :
    dict_lookup name = none := by
  unfold dict_lookup PRESETS
  rw [List.find?_cons_of_neg _ (by simp [beq_false_of_ne_string h7]),
      List.find?_cons_of_neg _ (by simp [beq_false_of_ne_string h5]),
      List.find?_cons_of_neg _ (by simp [beq_false_of_ne_string hw])]
  rfl

/-- C1: for every settings value whose encoding succeeds, byte 184 of the
returned blob is the two's-complement negation of the sum of bytes
0..183 mod 256, and hence the sum of bytes 0..184 is 0 mod 256. -/
theorem C1_checksum_invariant (x y t n f : Int) (blob : List Nat)
    (h : generate_goodix_config x y t n f = Except.ok blob) :
    blob.getD 184 0 = (256 - (blob.take 184).sum % 256) % 256 ∧
    ((blob.take 185).sum) % 256 = 0 := by
  obtain ⟨-, -, hb⟩ := generate_ok_inv h
  subst hb
  constructor
  · rw [blobList_getD_184, take184_sum, checksum8_eq]
  · rw [take185_sum]
    exact sum_add_checksum8 _

set_option maxRecDepth 40000 in
/-- Witness for C1 at the 7-inch preset settings. -/
theorem C1_checksum_invariant_witness :
    (blobList 1024 600 16 5 4).getD 184 0
        = (256 - ((blobList 1024 600 16 5 4).take 184).sum % 256) % 256 ∧
    (((blobList 1024 600 16 5 4).take 185).sum) % 256 = 0 :=
  C1_checksum_invariant 1024 600 16 5 4 (blobList 1024 600 16 5 4) (by decide)

/-- C2: decoding a successfully encoded blob recovers x_max, y_max,
num_touch_points after clamping to [1,10], filter_coefficient after
masking to its low 8 bits, and touch_threshold after flooring to 1. -/
theorem C2_round_trip (x y t n f : Int) (blob : List Nat)
    (h : generate_goodix_config x y t n f = Except.ok blob) :
    ∃ v : ConfigView, print_config_details blob = some v ∧
      v.x_res = x.toNat ∧ v.y_res = y.toNat ∧
      v.touches = (min (max 1 n) 10).toNat ∧
      v.flt = (f % 256).toNat ∧ v.threshold = (max 1 t).toNat := by
  obtain ⟨⟨hx1, hx2, hy1, hy2, -, -⟩, -, hb⟩ := generate_ok_inv h
  subst hb
  refine ⟨_, decode_blobList x y t n f, ?_, ?_, rfl, rfl, rfl⟩
  · show x.toNat % 256 + 256 * (x.toNat / 256 % 256) = x.toNat
    omega
  · show y.toNat % 256 + 256 * (y.toNat / 256 % 256) = y.toNat
    omega

set_option maxRecDepth 40000 in
/-- Witness for C2 at the 7-inch preset settings. -/
theorem C2_round_trip_witness :
    ∃ v : ConfigView, print_config_details (blobList 1024 600 16 5 4) = some v ∧
      v.x_res = (1024 : Int).toNat ∧ v.y_res = (600 : Int).toNat ∧
      v.touches = (min (max 1 (5 : Int)) 10).toNat ∧
      v.flt = ((4 : Int) % 256).toNat ∧ v.threshold = (max 1 (16 : Int)).toNat :=
  C2_round_trip 1024 600 16 5 4 (blobList 1024 600 16 5 4) (by decide)

set_option maxRecDepth 40000 in
/-- Counterexample to C3 as stated: with touch_threshold = 256 and an
otherwise valid resolution, `generate_goodix_config` does not succeed;
the bytearray assignment at offset 12 raises ValueError instead of
wrapping modulo 256. -/
theorem C3_counterexample :
    generate_goodix_config 1024 600 256 5 4
      = Except.error "byte must be in range(0, 256)" := by decide

/-- C3 amended: for settings whose resolution passes validation,
`generate_goodix_config` succeeds when `max(1, touch_threshold)` fits in
a byte (touch_threshold at most 255); when touch_threshold is 256 or
larger the bytearray assignment at offset 12 raises
`ValueError: byte must be in range(0, 256)` rather than wrapping. -/
theorem C3_threshold_byte_range (x y t n f : Int)
    (hx1 : 0 < x) (hx2 : x ≤ 4095) (hy1 : 0 < y) (hy2 : y ≤ 4095)
    (hxe : x % 2 = 0) (hye : y % 2 = 0) :
    (t ≤ 255 → ∃ blob, generate_goodix_config x y t n f = Except.ok blob) ∧
    (256 ≤ t →
      generate_goodix_config x y t n f
        = Except.error "byte must be in range(0, 256)") := by
  rw [generate_characterization x y t n f hx1 hx2 hy1 hy2 hxe hye]
  constructor
  · intro ht
    rw [if_pos ht]
    exact ⟨blobList x y t n f, rfl⟩
  · intro ht
    rw [if_neg (by omega)]

set_option maxRecDepth 40000 in
/-- Witness for C3's amended statement at concrete inputs. -/
theorem C3_threshold_byte_range_witness :
    (∃ blob, generate_goodix_config 1024 600 16 5 4 = Except.ok blob) ∧
    (generate_goodix_config 1024 600 300 5 4
      = Except.error "byte must be in range(0, 256)") :=
  ⟨(C3_threshold_byte_range 1024 600 16 5 4 (by decide) (by decide) (by decide)
      (by decide) (by decide) (by decide)).1 (by decide),
   (C3_threshold_byte_range 1024 600 300 5 4 (by decide) (by decide) (by decide)
      (by decide) (by decide) (by decide)).2 (by decide)⟩

set_option maxRecDepth 40000 in
/-- Counterexample to C4 as stated: a 187-byte input does not fail; the
decode reads all succeed, because `print_config_details` never checks
that the buffer is exactly 186 bytes long. -/
theorem C4_counterexample :
    print_config_details (List.replicate 187 0)
        = some ⟨0, 0, 0, 0, 0, 0, 0, 0, 0, 0, 0⟩ ∧
    (List.replicate 187 (0 : Nat)).length ≠ 186 := by decide

/-- C4 amended: decoding succeeds exactly when the input holds at least
186 bytes (the largest offset read is 185); shorter inputs fail with an
index/unpack error, and there is no exact-length check. -/
theorem C4_decode_length (l : List Nat) :
    (∃ v, print_config_details l = some v) ↔ 186 ≤ l.length := by
  constructor
  · rintro ⟨v, hv⟩
    exact print_config_details_some_length hv
  · intro h
    exact ⟨_, print_config_details_of_length l h⟩

/-- C5: validation succeeds exactly when both resolutions lie in
(0, 4095] and are even; x_max = 801 fails (odd), x_max = 4096 fails
(out of range), x_max = 4094 succeeds. -/
theorem C5_validation_boundary :
    (∀ x y : Int, validate_resolution x y = Except.ok () ↔
        (0 < x ∧ x ≤ 4095 ∧ 0 < y ∧ y ≤ 4095 ∧ x % 2 = 0 ∧ y % 2 = 0)) ∧
    validate_resolution 801 600 = Except.error "Resolution values must be even numbers" ∧
    validate_resolution 4096 600 = Except.error "Resolution must be between 1 and 4095" ∧
    validate_resolution 4094 600 = Except.ok () :=
  ⟨validate_resolution_ok_iff, by decide, by decide, by decide⟩

/-- C6: for any integer num_touch_points and settings that otherwise
encode successfully, the encoder stores min(max(1, n), 10) at offset 5
without signalling an error. -/
theorem C6_touch_points_clamped (x y t n f : Int)
    (hv : validate_resolution x y = Except.ok ()) (ht : t ≤ 255) :
    ∃ blob, generate_goodix_config x y t n f = Except.ok blob ∧
      blob.getD 5 0 = (min (max 1 n) 10).toNat := by
  obtain ⟨hx1, hx2, hy1, hy2, hxe, hye⟩ := (validate_resolution_ok_iff x y).mp hv
  refine ⟨blobList x y t n f, ?_, blobList_getD_5 x y t n f⟩
  rw [generate_characterization x y t n f hx1 hx2 hy1 hy2 hxe hye, if_pos ht]

/-- Witness for C6: num_touch_points 0 is stored as 1, and 15 as 10. -/
theorem C6_touch_points_clamped_witness :
    (∃ blob, generate_goodix_config 1024 600 16 0 4 = Except.ok blob ∧
      blob.getD 5 0 = 1) ∧
    (∃ blob, generate_goodix_config 1024 600 16 15 4 = Except.ok blob ∧
      blob.getD 5 0 = 10) := by
  constructor
  · obtain ⟨b, hb, h5⟩ := C6_touch_points_clamped 1024 600 16 0 4 (by decide) (by decide)
    exact ⟨b, hb, by rw [h5]; decide⟩
  · obtain ⟨b, hb, h5⟩ := C6_touch_points_clamped 1024 600 16 15 4 (by decide) (by decide)
    exact ⟨b, hb, by rw [h5]; decide⟩

set_option maxRecDepth 40000 in
/-- C7: the 7-inch preset settings encode to the concrete blob the spec
lists: version 0x01, 1024 and 600 little-endian, 5 touches, shake count
3, filter 4, threshold 16, checksum 0x85, fresh flag 0x01, and every
other byte in 0..183 zero. -/
theorem C7_concrete_scenario :
    ∃ blob, generate_goodix_config 1024 600 16 5 4 = Except.ok blob ∧
      blob.getD 0 0 = 0x01 ∧ blob.getD 1 0 = 0x00 ∧ blob.getD 2 0 = 0x04 ∧
      blob.getD 3 0 = 0x58 ∧ blob.getD 4 0 = 0x02 ∧ blob.getD 5 0 = 5 ∧
      blob.getD 8 0 = 3 ∧ blob.getD 9 0 = 4 ∧ blob.getD 12 0 = 16 ∧
      blob.getD 184 0 = 0x85 ∧ blob.getD 185 0 = 0x01 ∧
      ∀ i, i < 184 → i ∉ ([0, 1, 2, 3, 4, 5, 8, 9, 12] : List Nat) →
        blob.getD i 0 = 0 := by
  refine ⟨blobList 1024 600 16 5 4, by decide, ?_⟩
  decide

/-- C8: every blob a successful encode returns has length exactly 186,
with the fixed config-fresh sentinel 0x01 at byte 185. -/
theorem C8_length_invariant (x y t n f : Int) (blob : List Nat)
    (h : generate_goodix_config x y t n f = Except.ok blob) :
    blob.length = 186 ∧ blob.getD 185 0 = 0x01 := by
  obtain ⟨-, -, hb⟩ := generate_ok_inv h
  subst hb
  exact ⟨blobList_length x y t n f, blobList_getD_185 x y t n f⟩

set_option maxRecDepth 40000 in
/-- Witness for C8 at the 7-inch preset settings. -/
theorem C8_length_invariant_witness :
    (blobList 1024 600 16 5 4).length = 186 ∧
    (blobList 1024 600 16 5 4).getD 185 0 = 0x01 :=
  C8_length_invariant 1024 600 16 5 4 (blobList 1024 600 16 5 4) (by decide)

/-- C9: encoding is deterministic: equal settings always produce equal
results; the encoder depends on nothing but its arguments. -/
theorem C9_deterministic (x y t n f x' y' t' n' f' : Int)
    (hx : x = x') (hy : y = y') (ht : t = t') (hn : n = n') (hf : f = f') :
    generate_goodix_config x y t n f = generate_goodix_config x' y' t' n' f' := by
  subst hx; subst hy; subst ht; subst hn; subst hf
  rfl

/-- Witness for C9 at the 7-inch preset settings. -/
theorem C9_deterministic_witness :
    generate_goodix_config 1024 600 16 5 4 = generate_goodix_config 1024 600 16 5 4 :=
  C9_deterministic 1024 600 16 5 4 1024 600 16 5 4 rfl rfl rfl rfl rfl

/-- Counterexample to C10 as stated: loading the unknown preset name
"foo" returns the `PRESETS['7inch']` dict itself, so mutating the
returned dict changes the value seen through the PRESETS table. -/
theorem C10_counterexample :
    heapGet (heapSet (load_preset presetsHeap "foo").1
        (load_preset presetsHeap "foo").2 ⟨2, 2, 2, 2, 2⟩) 0
      = some ⟨2, 2, 2, 2, 2⟩ ∧
    heapGet presetsHeap 0 = some preset_7inch ∧
    (⟨2, 2, 2, 2, 2⟩ : Settings) ≠ preset_7inch := by decide

/-- C10 amended: for a name present in PRESETS, `load_preset` returns a
fresh copy of that preset's settings, and mutating the copy leaves every
PRESETS entry unchanged; for an unknown name it falls back to the
'7inch' values, but returns the table's own dict rather than a copy. -/
theorem C10_load_preset (s : Settings) :
    (∀ name addr, dict_lookup name = some addr →
        heapGet (load_preset presetsHeap name).1 (load_preset presetsHeap name).2
          = heapGet presetsHeap addr ∧
        (∀ b, b = 0 ∨ b = 1 ∨ b = 2 →
          heapGet (heapSet (load_preset presetsHeap name).1
              (load_preset presetsHeap name).2 s) b
            = heapGet presetsHeap b)) ∧
    (∀ name, dict_lookup name = none →
        load_preset presetsHeap name = (presetsHeap, 0) ∧
        heapGet presetsHeap 0 = some preset_7inch) := by
  constructor
  · intro name addr h
    by_cases h7 : name = "7inch"
    · subst h7
      rw [show dict_lookup "7inch" = some 0 from rfl] at h
      injection h with h
      subst h
      exact ⟨rfl, by rintro b (rfl | rfl | rfl) <;> rfl⟩
    · by_cases h5 : name = "5inch"
      · subst h5
        rw [show dict_lookup "5inch" = some 1 from rfl] at h
        injection h with h
        subst h
        exact ⟨rfl, by rintro b (rfl | rfl | rfl) <;> rfl⟩
      · by_cases hw : name = "waveshare7"
        · subst hw
          rw [show dict_lookup "waveshare7" = some 2 from rfl] at h
          injection h with h
          subst h
          exact ⟨rfl, by rintro b (rfl | rfl | rfl) <;> rfl⟩
        · rw [dict_lookup_none_of_unknown name h7 h5 hw] at h
          exact absurd h (by simp)
  · intro name h
    unfold load_preset
    rw [h]
    exact ⟨rfl, rfl⟩

/-- Witness for C10's amended statement: loading "5inch" yields that
preset's values, and an unknown name leaves the heap untouched. -/
theorem C10_load_preset_witness :
    heapGet (load_preset presetsHeap "5inch").1 (load_preset presetsHeap "5inch").2
      = heapGet presetsHeap 1 ∧
    load_preset presetsHeap "foo" = (presetsHeap, 0) :=
  ⟨((C10_load_preset ⟨1, 1, 1, 1, 1⟩).1 "5inch" 1 (by decide)).1,
   ((C10_load_preset ⟨1, 1, 1, 1, 1⟩).2 "foo" (by decide)).1⟩
